import Mathlib

/-!
Verification of the ufo-rust wrapper layer (src/src/lib.rs) and of the
core-engine behaviour it relies on.

The wrapper layer is embedded directly from the source: `UfoHandle` wraps an
`Option` of a locked object, and each operation is translated to a function
returning its result, the trace of externally visible events it performs
(lock acquisitions, calls into the core, waiter waits) and the post-state of
the handle.  The core engine itself (crate ufo_core) is not part of the
source tree; where a claim depends on its behaviour, it is modelled from the
specification and marked as such in the doc comment.
-/

/-- Errors of the handle layer.  `ufoNotFound` is produced by the wrapper
itself when the handle no longer holds its object; `ufoLockBroken` is the
lock-unavailable error. Modelled from the spec for the lock variant: a prior
panic poisoned a lock and this is surfaced as an error, not a crash. -/
inductive UfoInternalErr
  | ufoNotFound
  | ufoLockBroken
deriving DecidableEq, Repr

/-- The two lock modes of the object-level reader/writer lock. -/
inductive LockKind
  | shared
  | exclusive
deriving DecidableEq, Repr

/-- Externally visible events a handle operation performs, in order. -/
inductive HandleEvent
  | lockAcquire (k : LockKind)
  | coreResetCall
  | coreFreeCall
  | waiterObtained (w : Nat)
  | waitCall (w : Nat)
deriving DecidableEq, Repr

/-- The core-side object behind a handle.  The pointer values are abstract
addresses.  Modelled from the spec for the reset and free entry points of the
core: each enqueues a background task and yields a waiter token (a `Nat`
identifier here), failing only when a lock is unavailable (error `Unit`). -/
structure UfoObject where
  headerPtrVal : Nat
  bodyPtrVal : Nat
  resetWaiter : Except Unit Nat
  freeWaiter : Except Unit Nat

/-- The reference-counted reader/writer lock around the object
(WrappedUfoObject in the source).  `poisoned` records whether a prior panic
poisoned the lock, in which case both lock modes fail. -/
structure WrappedUfoObject where
  poisoned : Bool
  obj : UfoObject

/-- Acquiring the shared lock: fails iff the lock is poisoned. -/
def WrappedUfoObject.readLock (u : WrappedUfoObject) : Except UfoInternalErr UfoObject :=
  if u.poisoned then .error .ufoLockBroken else .ok u.obj

/-- Acquiring the exclusive lock: fails iff the lock is poisoned. -/
def WrappedUfoObject.writeLock (u : WrappedUfoObject) : Except UfoInternalErr UfoObject :=
  if u.poisoned then .error .ufoLockBroken else .ok u.obj

/-- The handle of the wrapper layer: `ufo` is `none` once the object has been
taken by `free` or by drop, exactly as the `Option<WrappedUfoObject>` field in
the source. -/
structure UfoHandle where
  ufo : Option WrappedUfoObject

/-- Outcome of one handle operation: the returned value, the ordered trace of
events performed, and the handle state afterwards. -/
structure OpOut (α : Type) where
  result : Except UfoInternalErr α
  trace : List HandleEvent
  post : UfoHandle

/-- Translation of UfoHandle::header_ptr: on a missing object return the
not-found error at once; otherwise take the shared lock and read the header
pointer, propagating a lock failure. -/
def UfoHandle.header_ptr (h : UfoHandle) : OpOut Nat :=
  match h.ufo with
  | none => ⟨.error .ufoNotFound, [], h⟩
  | some u =>
    match u.readLock with
    | .error e => ⟨.error e, [.lockAcquire .shared], h⟩
    | .ok o => ⟨.ok o.headerPtrVal, [.lockAcquire .shared], h⟩

/-- Translation of UfoHandle::body_ptr, identical to header_ptr but for the
body pointer. -/
def UfoHandle.body_ptr (h : UfoHandle) : OpOut Nat :=
  match h.ufo with
  | none => ⟨.error .ufoNotFound, [], h⟩
  | some u =>
    match u.readLock with
    | .error e => ⟨.error e, [.lockAcquire .shared], h⟩
    | .ok o => ⟨.ok o.bodyPtrVal, [.lockAcquire .shared], h⟩

/-- Translation of UfoHandle::reset: on a missing object return not-found;
otherwise take the exclusive lock, call the core reset, and if it yields a
waiter, wait on it and return unit.  The handle keeps its object. -/
def UfoHandle.reset (h : UfoHandle) : OpOut Unit :=
  match h.ufo with
  | none => ⟨.error .ufoNotFound, [], h⟩
  | some u =>
    match u.writeLock with
    | .error e => ⟨.error e, [.lockAcquire .exclusive], h⟩
    | .ok o =>
      match o.resetWaiter with
      | .error _ => ⟨.error .ufoLockBroken, [.lockAcquire .exclusive, .coreResetCall], h⟩
      | .ok w =>
        ⟨.ok (), [.lockAcquire .exclusive, .coreResetCall, .waiterObtained w, .waitCall w], h⟩

/-- Translation of UfoHandle::free: the object is taken out of the handle
first (the post-state never holds it), then the exclusive lock is acquired,
the core free is called, and its waiter is waited on. -/
def UfoHandle.free (h : UfoHandle) : OpOut Unit :=
  match h.ufo with
  | none => ⟨.error .ufoNotFound, [], ⟨none⟩⟩
  | some u =>
    match u.writeLock with
    | .error e => ⟨.error e, [.lockAcquire .exclusive], ⟨none⟩⟩
    | .ok o =>
      match o.freeWaiter with
      | .error _ => ⟨.error .ufoLockBroken, [.lockAcquire .exclusive, .coreFreeCall], ⟨none⟩⟩
      | .ok w =>
        ⟨.ok (), [.lockAcquire .exclusive, .coreFreeCall, .waiterObtained w, .waitCall w], ⟨none⟩⟩

/-- Translation of the Drop impl for UfoHandle: take the object if still
present; if the exclusive lock succeeds, call the core free and discard its
result, waiter included; never report any failure. -/
def UfoHandle.dropHandle (h : UfoHandle) : List HandleEvent × UfoHandle :=
  match h.ufo with
  | none => ([], ⟨none⟩)
  | some u =>
    match u.writeLock with
    | .error _ => ([.lockAcquire .exclusive], ⟨none⟩)
    | .ok o =>
      match o.freeWaiter with
      | .error _ => ([.lockAcquire .exclusive, .coreFreeCall], ⟨none⟩)
      | .ok w => ([.lockAcquire .exclusive, .coreFreeCall, .waiterObtained w], ⟨none⟩)

/-- Allocation error of the core, opaque at the wrapper level. -/
inductive UfoAllocateErr
  | allocErr
deriving DecidableEq, Repr

/-- Calls the wrapper can make into the underlying core. -/
inductive CoreCall
  | newCore
  | allocateUfo
  | newEventCallback
  | shutdown
deriving DecidableEq, Repr

/-- Translation of UfoCore::new_ufo: forward to the core allocator and wrap a
successful allocation in a handle that holds it.  The second component is the
trace of core calls made. -/
def UfoCore.new_ufo (alloc : Except UfoAllocateErr WrappedUfoObject) :
    Except UfoAllocateErr UfoHandle × List CoreCall :=
  match alloc with
  | .error e => (.error e, [.allocateUfo])
  | .ok u => (.ok ⟨some u⟩, [.allocateUfo])

/-- Core calls made by UfoCore::new_ufo_core: construct the core, nothing
else. -/
def UfoCore.new_ufo_core_calls : List CoreCall := [.newCore]

/-- Core calls made by UfoCore::new_event_callback: register the callback,
nothing else. -/
def UfoCore.new_event_callback_calls : List CoreCall := [.newEventCallback]

/-- Core calls made by the Drop impl for UfoCore: exactly one shutdown. -/
def UfoCore.drop_calls : List CoreCall := [.shutdown]

/-- Handles obtainable through the public interface: the only way to obtain
one is a successful `new_ufo`, which always stores the object; `free` and
drop consume the handle, so a handle the caller still owns arose this way. -/
inductive HandleLive : UfoHandle → Prop
  | intro (u : WrappedUfoObject) : HandleLive ⟨some u⟩

/-- Number of waiter tokens obtained in a trace. -/
def obtainedCount (t : List HandleEvent) : Nat :=
  (t.filter fun e => match e with | .waiterObtained _ => true | _ => false).length

/-- Number of wait calls in a trace. -/
def waitCount (t : List HandleEvent) : Nat :=
  (t.filter fun e => match e with | .waitCall _ => true | _ => false).length

/-- Modelled from the spec: admission rule of the object-level lock; two
acquisitions conflict when either is exclusive, so shared locks may coexist
and an exclusive lock excludes everything. -/
def LockKind.conflicts (a b : LockKind) : Bool :=
  a = .exclusive || b = .exclusive

/-!
Core-engine model.  The crate ufo_core is not in the source tree, so the
behaviour below is modelled from the specification at per-index granularity:
an index is read from resident memory when mapped, otherwise reloaded from
the writeback store when a dirty eviction persisted it, otherwise computed by
the populate function.
-/

/-- Modelled from the spec: the memory state of one lazy object.  `populate`
is the caller-supplied population function (pure in its index), `resident`
the currently mapped values, `writeback` the values the eviction sweep
persisted for dirty chunks. -/
structure CoreObject where
  populate : Nat → Nat
  resident : Nat → Option Nat
  writeback : Nat → Option Nat

/-- Modelled from the spec, fault servicing: a read returns the resident
value when mapped; an unmapped index is reloaded from the writeback store
when dirty data was persisted, and recomputed by populate otherwise. -/
def CoreObject.readIndex (o : CoreObject) (i : Nat) : Nat :=
  match o.resident i with
  | some v => v
  | none =>
    match o.writeback i with
    | some v => v
    | none => o.populate i

/-- Modelled from the spec: a write makes the index resident with the new
value (the containing chunk is populated by the triggering fault and the
byte then overwritten). -/
def CoreObject.writeIndex (o : CoreObject) (i v : Nat) : CoreObject :=
  { o with resident := fun j => if j = i then some v else o.resident j }

/-- Modelled from the spec, eviction of a modified index: its value moves
from resident memory to the writeback store and the page is unmapped. -/
def CoreObject.evictDirty (o : CoreObject) (i : Nat) : CoreObject :=
  match o.resident i with
  | some v =>
    { o with
      resident := fun j => if j = i then none else o.resident j,
      writeback := fun j => if j = i then some v else o.writeback j }
  | none => o

/-- Modelled from the spec, the background reset task: discard all writeback
data for the object and unmap every resident page, so every chunk is
Unpopulated again. -/
def CoreObject.resetObject (o : CoreObject) : CoreObject :=
  { o with resident := fun _ => none, writeback := fun _ => none }

/-- Modelled from the spec: a task queued for the background worker, tagged
with the waiter token it completes. -/
inductive WorkerTask
  | resetTask (w : Nat)
  | freeTask (w : Nat)
deriving DecidableEq, Repr

/-- Modelled from the spec: the core state for one object, with the FIFO
queue of background tasks, the next fresh waiter token and the set of tokens
the worker has marked done. -/
structure CoreState where
  obj : CoreObject
  freed : Bool
  queue : List WorkerTask
  nextWaiter : Nat
  completed : List Nat

/-- Well-formedness: every completed waiter token was issued earlier, so the
next token is fresh. -/
def CoreState.wf (s : CoreState) : Prop :=
  ∀ w ∈ s.completed, w < s.nextWaiter

/-- Modelled from the spec, the core reset entry point: enqueue a reset task
on the background worker and return a fresh waiter token immediately. -/
def coreReset (s : CoreState) : Nat × CoreState :=
  (s.nextWaiter,
   { s with
     queue := s.queue ++ [.resetTask s.nextWaiter],
     nextWaiter := s.nextWaiter + 1 })

/-- Modelled from the spec, the core free entry point: enqueue a free task on
the background worker and return a fresh waiter token immediately. -/
def coreFree (s : CoreState) : Nat × CoreState :=
  (s.nextWaiter,
   { s with
     queue := s.queue ++ [.freeTask s.nextWaiter],
     nextWaiter := s.nextWaiter + 1 })

/-- Modelled from the spec: one step of the background worker, processing the
head of the task queue and marking its waiter completed. -/
def workerStep (s : CoreState) : CoreState :=
  match s.queue with
  | [] => s
  | .resetTask w :: rest =>
    { s with obj := s.obj.resetObject, queue := rest, completed := w :: s.completed }
  | .freeTask w :: rest =>
    { s with freed := true, queue := rest, completed := w :: s.completed }

/-- Run the background worker for a bounded number of steps. -/
def workerRun : Nat → CoreState → CoreState
  | 0, s => s
  | n + 1, s => workerRun n (workerStep s)

/-- The blocking reset seen by the handle layer: enqueue the reset task, then
wait, which returns once the worker has drained the queue up to and including
that task. -/
def handleReset (s : CoreState) : CoreState :=
  let p := coreReset s
  workerRun p.2.queue.length p.2

/-- The lock kinds acquired along an event trace, in order. -/
def lockKinds (t : List HandleEvent) : List LockKind :=
  t.filterMap fun e => match e with | .lockAcquire k => some k | _ => none

/-- Scenario object of the spec: populate of an index is the index itself,
and the value 14 has been written at index 0. -/
def scenarioObj : CoreObject :=
  CoreObject.writeIndex ⟨fun i => i, fun _ => none, fun _ => none⟩ 0 14

/-- Scenario core state: the written object, live, idle worker, no waiter
issued yet. -/
def scenarioState : CoreState :=
  ⟨scenarioObj, false, [], 0, []⟩

/-- C2: every operation on a handle whose object is gone fails with the
not-found error while performing no events at all, and a second free right
after a first free observes the object absent and fails the same way with an
empty event trace. -/
theorem freed_handle_ops_not_found (h : UfoHandle) :
    (h.ufo = none →
      h.header_ptr = ⟨.error .ufoNotFound, [], h⟩ ∧
      h.body_ptr = ⟨.error .ufoNotFound, [], h⟩ ∧
      h.reset = ⟨.error .ufoNotFound, [], h⟩ ∧
      h.free = ⟨.error .ufoNotFound, [], ⟨none⟩⟩) ∧
    (h.free).post.free = ⟨.error .ufoNotFound, [], ⟨none⟩⟩ := by
  obtain ⟨_ | ⟨p, hv, bv, rw, fw⟩⟩ := h
  · constructor
    · intro hn
      refine ⟨?_, ?_, ?_, ?_⟩ <;> rfl
    · rfl
  · constructor
    · intro hn
      exact nomatch hn
    · cases p <;> cases rw <;> cases fw <;> rfl

/-- C2 witness: the concrete empty handle exercises every branch of the
theorem. -/
theorem freed_handle_ops_not_found_witness :
    (UfoHandle.mk none).ufo = none ∧
    (UfoHandle.mk none).header_ptr = ⟨.error .ufoNotFound, [], ⟨none⟩⟩ ∧
    (UfoHandle.mk none).free = ⟨.error .ufoNotFound, [], ⟨none⟩⟩ ∧
    ((UfoHandle.mk none).free).post.free = ⟨.error .ufoNotFound, [], ⟨none⟩⟩ := by
  have t := freed_handle_ops_not_found ⟨none⟩
  exact ⟨rfl, (t.1 rfl).1, (t.1 rfl).2.2.2, t.2⟩

/-- C4: in each reset and free, the number of waiter tokens obtained equals
the number of wait calls, at most one waiter is ever waited on, and a
successful return happens only on the trace that obtains one waiter and then
waits on that same waiter as its final event before returning. -/
theorem waiter_waited_exactly_once (h : UfoHandle) :
    obtainedCount (h.reset).trace = waitCount (h.reset).trace ∧
    waitCount (h.reset).trace ≤ 1 ∧
    ((h.reset).result = .ok () →
      ∃ w, (h.reset).trace =
        [.lockAcquire .exclusive, .coreResetCall, .waiterObtained w, .waitCall w]) ∧
    obtainedCount (h.free).trace = waitCount (h.free).trace ∧
    waitCount (h.free).trace ≤ 1 ∧
    ((h.free).result = .ok () →
      ∃ w, (h.free).trace =
        [.lockAcquire .exclusive, .coreFreeCall, .waiterObtained w, .waitCall w]) := by
  obtain ⟨_ | ⟨p, hv, bv, rw, fw⟩⟩ := h
  · refine ⟨?_, ?_, ?_, ?_, ?_, ?_⟩
    · rfl
    · exact Nat.zero_le 1
    · intro hr
      exact nomatch hr
    · rfl
    · exact Nat.zero_le 1
    · intro hr
      exact nomatch hr
  · cases p <;> cases rw <;> cases fw
    all_goals refine ⟨?_, ?_, ?_, ?_, ?_, ?_⟩
    all_goals first
      | rfl
      | exact Nat.zero_le 1
      | (intro hr; exact Except.noConfusion hr)
      | (intro hr; exact ⟨_, rfl⟩)

/-- C4 witness: a live handle with healthy lock and core, where both reset
and free succeed after exactly one wait on the obtained waiter. -/
theorem waiter_waited_exactly_once_witness :
    obtainedCount ((UfoHandle.mk (some ⟨false, ⟨0, 0, .ok 1, .ok 2⟩⟩)).reset).trace =
      waitCount ((UfoHandle.mk (some ⟨false, ⟨0, 0, .ok 1, .ok 2⟩⟩)).reset).trace ∧
    (∃ w, ((UfoHandle.mk (some ⟨false, ⟨0, 0, .ok 1, .ok 2⟩⟩)).reset).trace =
      [.lockAcquire .exclusive, .coreResetCall, .waiterObtained w, .waitCall w]) ∧
    (∃ w, ((UfoHandle.mk (some ⟨false, ⟨0, 0, .ok 1, .ok 2⟩⟩)).free).trace =
      [.lockAcquire .exclusive, .coreFreeCall, .waiterObtained w, .waitCall w]) := by
  have t := waiter_waited_exactly_once ⟨some ⟨false, ⟨0, 0, .ok 1, .ok 2⟩⟩⟩
  exact ⟨t.1, t.2.2.1 rfl, t.2.2.2.2.2 rfl⟩

/-- C5: when a prior panic poisoned the object lock, header_ptr, body_ptr,
reset and free each return the lock-unavailable error to the caller instead
of crashing. -/
theorem poisoned_lock_returns_error (h : UfoHandle) (u : WrappedUfoObject)
    (hu : h.ufo = some u) (hp : u.poisoned = true) :
    (h.header_ptr).result = .error .ufoLockBroken ∧
    (h.body_ptr).result = .error .ufoLockBroken ∧
    (h.reset).result = .error .ufoLockBroken ∧
    (h.free).result = .error .ufoLockBroken := by
  simp [UfoHandle.header_ptr, UfoHandle.body_ptr, UfoHandle.reset, UfoHandle.free, hu,
        WrappedUfoObject.readLock, WrappedUfoObject.writeLock, hp]

/-- C5 witness: a concrete handle over a poisoned lock. -/
theorem poisoned_lock_returns_error_witness :
    (UfoHandle.mk (some ⟨true, ⟨0, 0, .ok 1, .ok 2⟩⟩)).ufo =
      some ⟨true, ⟨0, 0, .ok 1, .ok 2⟩⟩ ∧
    (WrappedUfoObject.mk true ⟨0, 0, .ok 1, .ok 2⟩).poisoned = true ∧
    ((UfoHandle.mk (some ⟨true, ⟨0, 0, .ok 1, .ok 2⟩⟩)).reset).result =
      .error .ufoLockBroken := by
  have t := poisoned_lock_returns_error ⟨some ⟨true, ⟨0, 0, .ok 1, .ok 2⟩⟩⟩
    ⟨true, ⟨0, 0, .ok 1, .ok 2⟩⟩ rfl rfl
  exact ⟨rfl, rfl, t.2.2.1⟩

/-- C6: handle destruction is best-effort: it always terminates with the
object released and no error, it does nothing when the object was already
freed, it attempts the core free when the object is live and the lock is
healthy, it swallows a failure of that free rather than propagating it, and
when the lock is poisoned it gives up silently without calling free. -/
theorem drop_best_effort_cleanup (h : UfoHandle) (u : WrappedUfoObject) :
    (h.dropHandle).2 = ⟨none⟩ ∧
    (h.ufo = none → h.dropHandle = ([], ⟨none⟩)) ∧
    (h.ufo = some u → u.poisoned = false → .coreFreeCall ∈ (h.dropHandle).1) ∧
    (h.ufo = some u → u.poisoned = false → u.obj.freeWaiter = .error () →
      h.dropHandle = ([.lockAcquire .exclusive, .coreFreeCall], ⟨none⟩)) ∧
    (h.ufo = some u → u.poisoned = true →
      h.dropHandle = ([.lockAcquire .exclusive], ⟨none⟩)) := by
  obtain ⟨_ | ⟨p, o⟩⟩ := h
  · refine ⟨rfl, fun _ => rfl, ?_, ?_, ?_⟩ <;> intro hu <;> exact Option.noConfusion hu
  · obtain ⟨hv, bv, rw, fw⟩ := o
    refine ⟨?_, ?_, ?_, ?_, ?_⟩
    · cases p <;> cases fw <;> rfl
    · intro hn
      exact Option.noConfusion hn
    · intro hu hp
      injection hu with hu
      subst hu
      simp only [] at hp
      subst hp
      cases fw <;> simp [UfoHandle.dropHandle, WrappedUfoObject.writeLock]
    · intro hu hp hw
      injection hu with hu
      subst hu
      simp only [] at hp hw
      subst hp
      cases fw
      · rfl
      · exact Except.noConfusion hw
    · intro hu hp
      injection hu with hu
      subst hu
      simp only [] at hp
      subst hp
      cases fw <;> rfl

/-- C6 witness: a live handle whose core free fails; drop still returns with
the object released, after attempting the free. -/
theorem drop_best_effort_cleanup_witness :
    (UfoHandle.mk (some ⟨false, ⟨0, 0, .ok 1, .error ()⟩⟩)).ufo =
      some ⟨false, ⟨0, 0, .ok 1, .error ()⟩⟩ ∧
    (WrappedUfoObject.mk false ⟨0, 0, .ok 1, .error ()⟩).poisoned = false ∧
    (WrappedUfoObject.mk false ⟨0, 0, .ok 1, .error ()⟩).obj.freeWaiter = .error () ∧
    (UfoHandle.mk (some ⟨false, ⟨0, 0, .ok 1, .error ()⟩⟩)).dropHandle =
      ([.lockAcquire .exclusive, .coreFreeCall], ⟨none⟩) ∧
    (UfoHandle.mk none).dropHandle = ([], ⟨none⟩) := by
  have t := drop_best_effort_cleanup ⟨some ⟨false, ⟨0, 0, .ok 1, .error ()⟩⟩⟩
    ⟨false, ⟨0, 0, .ok 1, .error ()⟩⟩
  have s := drop_best_effort_cleanup ⟨none⟩ ⟨false, ⟨0, 0, .ok 1, .error ()⟩⟩
  exact ⟨rfl, rfl, rfl, t.2.2.2.1 rfl rfl rfl, s.2.1 rfl⟩

/-- C7: header_ptr and body_ptr acquire only the shared lock, reset and free
acquire only the exclusive lock, and an exclusive acquisition conflicts with
every other acquisition, so reset and free are mutually exclusive with all
pointer access and with each other. -/
theorem lock_kinds_shared_exclusive (h : UfoHandle) :
    ((lockKinds (h.header_ptr).trace).all fun k => k == .shared) = true ∧
    ((lockKinds (h.body_ptr).trace).all fun k => k == .shared) = true ∧
    ((lockKinds (h.reset).trace).all fun k => k == .exclusive) = true ∧
    ((lockKinds (h.free).trace).all fun k => k == .exclusive) = true ∧
    ∀ k, LockKind.conflicts .exclusive k = true := by
  obtain ⟨_ | ⟨p, hv, bv, rw, fw⟩⟩ := h
  · refine ⟨rfl, rfl, rfl, rfl, ?_⟩
    intro k
    cases k <;> rfl
  · cases p <;> cases rw <;> cases fw
    all_goals refine ⟨rfl, rfl, rfl, rfl, ?_⟩
    all_goals intro k
    all_goals cases k <;> rfl

/-- C10: header_ptr and body_ptr never change the handle state, and repeated
calls on the same handle, in any order, return identical outcomes. -/
theorem ptr_ops_readonly_deterministic (h : UfoHandle) :
    (h.header_ptr).post = h ∧
    (h.body_ptr).post = h ∧
    ((h.header_ptr).post).header_ptr = h.header_ptr ∧
    ((h.header_ptr).post).body_ptr = h.body_ptr ∧
    ((h.body_ptr).post).header_ptr = h.header_ptr ∧
    ((h.body_ptr).post).body_ptr = h.body_ptr := by
  obtain ⟨_ | ⟨p, o⟩⟩ := h
  · exact ⟨rfl, rfl, rfl, rfl, rfl, rfl⟩
  · cases p <;> exact ⟨rfl, rfl, rfl, rfl, rfl, rfl⟩

/-- C9: the drop glue of the core wrapper calls shutdown exactly once, and no
other operation of the wrapper layer ever calls shutdown. -/
theorem core_drop_shutdown_once :
    UfoCore.drop_calls.count CoreCall.shutdown = 1 ∧
    CoreCall.shutdown ∉ UfoCore.new_ufo_core_calls ∧
    CoreCall.shutdown ∉ UfoCore.new_event_callback_calls ∧
    ∀ a, CoreCall.shutdown ∉ (UfoCore.new_ufo a).2 := by
  refine ⟨by decide, by decide, by decide, ?_⟩
  intro a
  cases a <;> simp [UfoCore.new_ufo]

/-- C8: the not-found branch of header_ptr, body_ptr and reset is not
reachable through the public interface: every handle a successful new_ufo
returns is live, the non-consuming operations keep it live and unchanged, and
on a live handle those three operations never return the not-found error;
their only possible failure is the lock-unavailable error. -/
theorem live_handle_not_found_unreachable :
    (∀ a h, (UfoCore.new_ufo a).1 = .ok h → HandleLive h) ∧
    (∀ h, HandleLive h →
      h.ufo ≠ none ∧
      (h.header_ptr).post = h ∧
      (h.body_ptr).post = h ∧
      (h.reset).post = h ∧
      (h.header_ptr).result ≠ .error .ufoNotFound ∧
      (h.body_ptr).result ≠ .error .ufoNotFound ∧
      (h.reset).result ≠ .error .ufoNotFound ∧
      (∀ e, (h.header_ptr).result = .error e → e = .ufoLockBroken) ∧
      (∀ e, (h.body_ptr).result = .error e → e = .ufoLockBroken) ∧
      (∀ e, (h.reset).result = .error e → e = .ufoLockBroken)) := by
  constructor
  · intro a h hok
    cases a with
    | error e => exact Except.noConfusion hok
    | ok u =>
      injection hok with hok
      subst hok
      exact HandleLive.intro u
  · intro h hl
    obtain ⟨u⟩ := hl
    obtain ⟨p, hv, bv, rw, fw⟩ := u
    cases p <;> cases rw
    all_goals refine ⟨fun hn => Option.noConfusion hn, rfl, rfl, rfl, ?_, ?_, ?_, ?_, ?_, ?_⟩
    all_goals first
      | (intro hr; exact Except.noConfusion hr)
      | (intro hr; injection hr with hr; exact UfoInternalErr.noConfusion hr)
      | (intro e he; exact Except.noConfusion he)
      | (intro e he; injection he with he; exact he.symm)

/-- C8 witness: the handle obtained from a concrete successful allocation is
live and none of header_ptr, body_ptr, reset can report not-found on it. -/
theorem live_handle_not_found_unreachable_witness :
    HandleLive (UfoHandle.mk (some ⟨false, ⟨0, 0, .ok 1, .ok 2⟩⟩)) ∧
    ((UfoHandle.mk (some ⟨false, ⟨0, 0, .ok 1, .ok 2⟩⟩)).header_ptr).result ≠
      .error .ufoNotFound ∧
    ((UfoHandle.mk (some ⟨false, ⟨0, 0, .ok 1, .ok 2⟩⟩)).reset).result ≠
      .error .ufoNotFound := by
  have t := live_handle_not_found_unreachable
  have hl := t.1 (.ok ⟨false, ⟨0, 0, .ok 1, .ok 2⟩⟩)
    ⟨some ⟨false, ⟨0, 0, .ok 1, .ok 2⟩⟩⟩ rfl
  have props := t.2 ⟨some ⟨false, ⟨0, 0, .ok 1, .ok 2⟩⟩⟩ hl
  exact ⟨hl, props.2.2.2.2.1, props.2.2.2.2.2.2.1⟩

/-- C1: once the blocking reset of the handle layer has returned on an idle
worker, every index of the object reads back as the original populate output,
whatever writes and dirty evictions happened before, and the waiter of the
enqueued reset task has been completed. -/
theorem reset_restores_populate (s : CoreState) (hq : s.queue = []) :
    (∀ i, (handleReset s).obj.readIndex i = s.obj.populate i) ∧
    (coreReset s).1 ∈ (handleReset s).completed := by
  obtain ⟨o, f, q, nw, c⟩ := s
  simp only [] at hq
  subst hq
  constructor
  · intro i
    rfl
  · exact List.mem_cons_self nw c

/-- C1 witness: the spec scenario with populate of an index equal to the
index: the value 14 was written at index 0 and is visible before the reset;
after the reset, index 0 reads back as 0 and no longer as 14. -/
theorem reset_restores_populate_witness :
    scenarioState.queue = [] ∧
    scenarioObj.readIndex 0 = 14 ∧
    (handleReset scenarioState).obj.readIndex 0 = 0 ∧
    (handleReset scenarioState).obj.readIndex 0 ≠ 14 := by
  have t := (reset_restores_populate scenarioState rfl).1 0
  exact ⟨rfl, rfl, t, by rw [t]; decide⟩

/-- C3: the core reset and free entry points are asynchronous: each returns a
fresh waiter token at once, with the object memory, the freed flag and the
completion set untouched at that moment; the enqueued work is performed by a
later worker step, which applies the reset or free effect and completes that
waiter. -/
theorem reset_free_async_waiter (s : CoreState) (hwf : s.wf) :
    ((coreReset s).2.obj = s.obj ∧
     (coreReset s).2.freed = s.freed ∧
     (coreReset s).1 ∉ (coreReset s).2.completed ∧
     (s.queue = [] →
       (workerStep (coreReset s).2).obj = s.obj.resetObject ∧
       (coreReset s).1 ∈ (workerStep (coreReset s).2).completed)) ∧
    ((coreFree s).2.obj = s.obj ∧
     (coreFree s).2.freed = s.freed ∧
     (coreFree s).1 ∉ (coreFree s).2.completed ∧
     (s.queue = [] →
       (workerStep (coreFree s).2).freed = true ∧
       (coreFree s).1 ∈ (workerStep (coreFree s).2).completed)) := by
  obtain ⟨o, f, q, nw, c⟩ := s
  have hfresh : nw ∉ c := by
    intro hmem
    exact absurd (hwf nw hmem) (Nat.lt_irrefl nw)
  constructor
  · refine ⟨rfl, rfl, hfresh, ?_⟩
    intro hq
    simp only [] at hq
    subst hq
    exact ⟨rfl, List.mem_cons_self nw c⟩
  · refine ⟨rfl, rfl, hfresh, ?_⟩
    intro hq
    simp only [] at hq
    subst hq
    exact ⟨rfl, List.mem_cons_self nw c⟩

/-- C3 witness: on the concrete scenario state the reset entry point returns
at once with the object untouched and its waiter pending, and one worker step
then applies the reset and completes the waiter; likewise the free entry
point defers the freeing to the worker. -/
theorem reset_free_async_waiter_witness :
    scenarioState.wf ∧
    (coreReset scenarioState).2.obj = scenarioState.obj ∧
    (coreReset scenarioState).1 ∉ (coreReset scenarioState).2.completed ∧
    (workerStep (coreReset scenarioState).2).obj = scenarioState.obj.resetObject ∧
    (coreReset scenarioState).1 ∈ (workerStep (coreReset scenarioState).2).completed ∧
    (coreFree scenarioState).2.freed = scenarioState.freed ∧
    (workerStep (coreFree scenarioState).2).freed = true := by
  have hwf : scenarioState.wf := fun w hw => absurd hw (List.not_mem_nil w)
  have t := reset_free_async_waiter scenarioState hwf
  exact ⟨hwf, t.1.1, t.1.2.2.1, (t.1.2.2.2 rfl).1, (t.1.2.2.2 rfl).2,
    t.2.2.1, (t.2.2.2.2 rfl).1⟩
